import Mathlib

/-!
Verification of `recipe-card-from-json`: a shallow embedding of the two
Python source files (`recipe-card-from-json.py` and
`generate_recipe_from_json.py`) and proofs about the Recipe Model Loader
and the Banner Geometry Calculator.

- JSON values are modelled by the inductive `Json`; Python dict lookup is
  modelled by association-list lookup.
- `RecipeSpec.load_recipe_json` embeds `load_recipe_json` from
  `recipe-card-from-json.py` (lines 50-102): `raise SystemExit` becomes
  `Except.error`, the soft-warning `print` calls become the returned list
  of warning strings.
- `RecipeSpec.RecipeCard.*` embeds `recipe-card-from-json.py`;
  `RecipeSpec.GenerateRecipe.*` embeds `generate_recipe_from_json.py`.
- Floating-point arithmetic in the geometry is modelled exactly over `ℚ`.
-/

namespace RecipeSpec

/-- A JSON value. Objects are association lists of key/value pairs
(Python dict lookup is first-match lookup). Numbers are modelled as
rationals. -/
inductive Json where
  | null : Json
  | bool (b : Bool) : Json
  | num (q : ℚ) : Json
  | str (s : String) : Json
  | arr (elems : List Json) : Json
  | obj (fields : List (String × Json)) : Json

/-- Python `d[k]`-style lookup on an object: the value of key `k`, if
present. -/
def Json.lookup (k : String) : Json → Option Json
  | .obj fields => List.lookup k fields
  | _ => none

/-- Python `d.get(k, dflt)`. -/
def Json.getD (d : Json) (k : String) (dflt : Json) : Json :=
  (d.lookup k).getD dflt

/-- `isinstance(v, list)`. -/
def Json.isArr : Json → Bool
  | .arr _ => true
  | _ => false

/-- `isinstance(v, str)`. -/
def Json.isStr : Json → Bool
  | .str _ => true
  | _ => false

/-- `recipe-card-from-json.py` line 82: `isinstance(row, list) and len(row) == 2`
(the per-row ingredients check; note the cells' types are NOT inspected). -/
def row2Ok : Json → Bool
  | .arr xs => xs.length == 2
  | _ => false

/-- `recipe-card-from-json.py` line 90: `isinstance(row, list) and len(row) == 1`. -/
def row1Ok : Json → Bool
  | .arr xs => xs.length == 1
  | _ => false

/-- Lines 81-83: the `ingredients` value must be a list all of whose rows
pass `row2Ok`. -/
def ingredientsOk : Json → Bool
  | .arr rows => rows.all row2Ok
  | _ => false

/-- Lines 89-91: the `equipment` value must be a list all of whose rows
pass `row1Ok`. -/
def equipmentOk : Json → Bool
  | .arr rows => rows.all row1Ok
  | _ => false

/-- Lines 96-97: the `instructions` value must be a list of strings. -/
def instructionsOk : Json → Bool
  | .arr xs => xs.all Json.isStr
  | _ => false

/-- The optional-field pattern `if "ingredients" in comp: check(...)`:
an absent key passes, a present key must satisfy the check. -/
def optOk (check : Json → Bool) : Option Json → Bool
  | none => true
  | some v => check v

/-- Lines 74-100: the per-component checks of `load_recipe_json`, in source
order (object, `name` presence, `ingredients`, `equipment`,
`instructions`), for the component at (1-based) index `idx`. -/
def checkComponent (idx : Nat) : Json → Except String Unit
  | .obj fields =>
      if (List.lookup "name" fields).isNone then
        .error s!"ERROR: components[{idx}] is missing 'name'."
      else if !optOk ingredientsOk (List.lookup "ingredients" fields) then
        .error s!"ERROR: components[{idx}].ingredients must be a list of [name, amount] pairs."
      else if !optOk equipmentOk (List.lookup "equipment" fields) then
        .error s!"ERROR: components[{idx}].equipment must be a list of single-item rows."
      else if !optOk instructionsOk (List.lookup "instructions" fields) then
        .error s!"ERROR: components[{idx}].instructions must be a list of strings."
      else
        .ok ()
  | _ => .error s!"ERROR: components[{idx}] must be an object."

/-- Line 73: `for idx, comp in enumerate(data["components"], start=1)`,
stopping at the first failing component. -/
def checkComponents : Nat → List Json → Except String Unit
  | _, [] => .ok ()
  | idx, c :: cs =>
      match checkComponent idx c with
      | .ok _ => checkComponents (idx + 1) cs
      | .error e => .error e

/-- Lines 65-70: the soft warnings printed for absent optional keys. -/
def softWarnings (fields : List (String × Json)) : List String :=
  (if (List.lookup "title" fields).isNone then
    ["WARN: Missing 'title'; defaulting to 'Recipe'."] else []) ++
  (if (List.lookup "version" fields).isNone then
    ["WARN: Missing 'version'; footer will be blank."] else []) ++
  (if (List.lookup "line_length" fields).isNone then
    ["WARN: Missing 'line_length'; defaulting to 420."] else [])

/-- Lines 50-102 of `recipe-card-from-json.py` (post-parse): validate the
decoded JSON value. On success the parsed value itself is returned,
together with the warnings printed along the way. -/
def load_recipe_json (data : Json) : Except String (Json × List String) :=
  match data with
  | .obj fields =>
    match List.lookup "components" fields with
    | some (.arr comps) =>
      match checkComponents 1 comps with
      | .ok () => .ok (Json.obj fields, softWarnings fields)
      | .error e => .error e
    | some _ => .error "ERROR: JSON must contain a 'components' array."
    | none => .error "ERROR: JSON must contain a 'components' array."
  | _ => .error "ERROR: Top-level JSON must be an object."

/-- Python truthiness (`if not version: ...`) of a JSON value. -/
def pyTruthy : Json → Bool
  | .null => false
  | .bool b => b
  | .num q => q != 0
  | .str s => s != ""
  | .arr xs => !xs.isEmpty
  | .obj fs => !fs.isEmpty

/-- What Python `for x in v` iterates over: list elements, the characters
of a string (as 1-character strings), the keys of a dict; other values
raise `TypeError` (`none`). -/
def pyIter : Json → Option (List Json)
  | .arr xs => some xs
  | .str s => some (s.toList.map fun c => Json.str (String.singleton c))
  | .obj fs => some (fs.map fun p => Json.str p.1)
  | _ => none

/-- Python `comp["name"]`: key lookup on a dict (`KeyError` when absent),
`TypeError` on a non-dict. -/
def pyIndexName : Json → Except String Json
  | .obj fs =>
      match List.lookup "name" fs with
      | some v => .ok v
      | none => .error "KeyError: name"
  | _ => .error "TypeError: value is not subscriptable by string"

/-- The ascent/descent metrics a font face exposes, in 1/1000ths of the
point size (`pdfmetrics.getFont(name).face`). -/
structure FontFace where
  ascent : ℚ
  descent : ℚ
deriving DecidableEq, Repr

/-- ReportLab's built-in metrics for `Helvetica-Bold`, the (only) font the
program passes to the banner: ascent 718, descent -207. -/
def helveticaBoldFace : FontFace := { ascent := 718, descent := -207 }

/-- The positions `ComponentBanner.draw` emits: the two rules' endpoints
(`x0`/`x1` at heights `y_bottom`/`y_top`) and the label's start
(`text_x`, `baseline_y`). -/
structure DrawGeometry where
  x0 : ℚ
  x1 : ℚ
  y_bottom : ℚ
  y_top : ℚ
  text_x : ℚ
  baseline_y : ℚ
deriving DecidableEq, Repr

/-- The observable outcome of `build_pdf`: the metadata baked into the
document and the banner label of each component page. `footer = none`
means no footer text is drawn. -/
structure PdfOutput where
  title : Json
  version : Json
  line_length : Json
  footer : Option Json
  bannerTexts : List Json

namespace RecipeCard

/-- The state `ComponentBanner.__init__` of `recipe-card-from-json.py`
(lines 121-161) stores. `text_width` stands for the backend's
`pdfmetrics.stringWidth(text, font_name, font_size)` measurement of the
label. -/
structure ComponentBanner where
  text_width : ℚ
  container_width : ℚ
  line_length : ℚ
  line_thickness : ℚ
  font_size : ℚ
  gap_above : ℚ
  padding_top : ℚ
  padding_bottom : ℚ
  gap_below : ℚ
  text_height : ℚ
  text_descent : ℚ
  band_height : ℚ
  width : ℚ
  height : ℚ
deriving DecidableEq, Repr

/-- `ComponentBanner.__init__` (lines 121-161): stores the inputs, adds the
optical `top_text_correction` to `padding_top`, derives the text metrics
from the face, the band height and the flowable box size. -/
def ComponentBanner.init (face : FontFace) (text_width container_width
    line_length line_thickness font_size gap_above padding_top
    padding_bottom gap_below top_text_correction : ℚ) : ComponentBanner :=
  let padTop := padding_top + top_text_correction
  let ascent := face.ascent * font_size / 1000
  let descent := |face.descent| * font_size / 1000
  let text_height := ascent + descent
  let band_height := padTop + text_height + padding_bottom
  { text_width := text_width
    container_width := container_width
    line_length := line_length
    line_thickness := line_thickness
    font_size := font_size
    gap_above := gap_above
    padding_top := padTop
    padding_bottom := padding_bottom
    gap_below := gap_below
    text_height := text_height
    text_descent := descent
    band_height := band_height
    width := container_width
    height := gap_above + band_height + line_thickness + gap_below }

/-- `ComponentBanner.draw` (lines 166-194): clamps the rule length to the
container, centers rules and label, and places the baseline. -/
def ComponentBanner.draw (b : ComponentBanner) : DrawGeometry :=
  let eff_len := min b.line_length b.container_width
  let x0 := (b.container_width - eff_len) / 2
  { x0 := x0
    x1 := x0 + eff_len
    y_bottom := b.gap_above
    y_top := b.gap_above + b.band_height
    text_x := (b.container_width - b.text_width) / 2
    baseline_y := b.gap_above + b.padding_bottom + b.text_descent }

/-- `build_pdf` of `recipe-card-from-json.py` (lines 223-342): load (and
validate) the document, then extract title/version/line_length with their
defaults and emit one banner per component. The footer drawn by
`make_footer` always exists, with text `version or ""`. The lookup
`(c.lookup "name").getD .null` models `comp["name"]`, which cannot raise
here because validation guarantees the key. -/
def build_pdf (d : Json) : Except String PdfOutput :=
  match load_recipe_json d with
  | .error e => .error e
  | .ok (data, _warnings) =>
    .ok { title := data.getD "title" (.str "Recipe")
          version := data.getD "version" (.str "")
          line_length := data.getD "line_length" (.num 420)
          footer := some (data.getD "version" (.str ""))
          bannerTexts :=
            match data.lookup "components" with
            | some (.arr cs) => cs.map fun c => (c.lookup "name").getD .null
            | _ => [] }

end RecipeCard

namespace GenerateRecipe

/-- The state `ComponentBanner.__init__` of `generate_recipe_from_json.py`
(lines 32-55) stores; same fields as the other file's banner. -/
structure ComponentBanner where
  text_width : ℚ
  container_width : ℚ
  line_length : ℚ
  line_thickness : ℚ
  font_size : ℚ
  padding_bottom : ℚ
  padding_top : ℚ
  gap_above : ℚ
  gap_below : ℚ
  text_height : ℚ
  text_descent : ℚ
  band_height : ℚ
  width : ℚ
  height : ℚ
deriving DecidableEq, Repr

/-- `ComponentBanner.__init__` (lines 32-55), parameters in source order:
identical metrics derivation; the band height is summed as
`padding_bottom + text_height + padding_top`. -/
def ComponentBanner.init (face : FontFace) (text_width container_width
    line_length line_thickness font_size padding_bottom padding_top
    top_correction gap_above gap_below : ℚ) : ComponentBanner :=
  let padTop := padding_top + top_correction
  let ascent := face.ascent * font_size / 1000
  let descent := |face.descent| * font_size / 1000
  let text_height := ascent + descent
  let band_height := padding_bottom + text_height + padTop
  { text_width := text_width
    container_width := container_width
    line_length := line_length
    line_thickness := line_thickness
    font_size := font_size
    padding_bottom := padding_bottom
    padding_top := padTop
    gap_above := gap_above
    gap_below := gap_below
    text_height := text_height
    text_descent := descent
    band_height := band_height
    width := container_width
    height := gap_above + band_height + line_thickness + gap_below }

/-- `ComponentBanner.draw` (lines 57-73): NO clamp — the rules span
`line_length` centered on the container, even when longer than it. -/
def ComponentBanner.draw (b : ComponentBanner) : DrawGeometry :=
  let x0 := (b.container_width - b.line_length) / 2
  { x0 := x0
    x1 := x0 + b.line_length
    y_bottom := b.gap_above
    y_top := b.gap_above + b.band_height
    text_x := (b.container_width - b.text_width) / 2
    baseline_y := b.gap_above + b.padding_bottom + b.text_descent }

/-- `build_pdf`'s title expression: line 97,
`data.get("title", "Milkbar Recipe")`. -/
def titleOf (data : Json) : Json :=
  data.getD "title" (.str "Milkbar Recipe")

/-- `build_pdf`'s line-length expression: line 99,
`data.get("line_length", 420)`. -/
def lineLengthOf (data : Json) : Json :=
  data.getD "line_length" (.num 420)

/-- The footer text the `_footer` closure (lines 80-94) draws: `none` (the
early `return`) when `version = data.get("version")` is falsy. -/
def footerOf (fields : List (String × Json)) : Option Json :=
  match List.lookup "version" fields with
  | some v => if pyTruthy v then some v else none
  | none => none

/-- `build_pdf` of `generate_recipe_from_json.py` (lines 75-177): no
validation at all. `data["components"]` raises on a missing key;
iteration raises on non-iterables; each `comp["name"]` raises on
non-dicts or missing keys; otherwise the document is built. The footer
closure returns early (`footer = none`) when `data.get("version")` is
falsy. The title default is `"Milkbar Recipe"`. -/
def build_pdf (data : Json) : Except String PdfOutput :=
  match data with
  | .obj fields =>
    match List.lookup "components" fields with
    | none => .error "KeyError: components"
    | some comps =>
      match pyIter comps with
      | none => .error "TypeError: object is not iterable"
      | some cs =>
        match cs.mapM pyIndexName with
        | .error e => .error e
        | .ok names =>
          .ok { title := titleOf (Json.obj fields)
                version := (List.lookup "version" fields).getD .null
                line_length := lineLengthOf (Json.obj fields)
                footer := footerOf fields
                bannerTexts := names }
  | _ => .error "AttributeError: value has no attribute get"

end GenerateRecipe

/-! Helper lemmas about the loader. -/

/-- The top-level keys `load_recipe_json` inspects. -/
def topLevelKeys : List String := ["title", "version", "line_length", "components"]

/-- The component-level keys `load_recipe_json` inspects. -/
def componentLevelKeys : List String := ["name", "ingredients", "equipment", "instructions"]

/-- Association-list lookup ignores a prepended pair with a different key. -/
theorem lookup_cons_ne {β : Type} {k k' : String} (h : k' ≠ k) (v : β)
    (fs : List (String × β)) :
    List.lookup k' ((k, v) :: fs) = List.lookup k' fs := by
  simp [List.lookup, beq_false_of_ne h]

/-- The Boolean outcome of the per-component checks. -/
def compOk : Json → Bool
  | .obj fields =>
      (List.lookup "name" fields).isSome
      && optOk ingredientsOk (List.lookup "ingredients" fields)
      && optOk equipmentOk (List.lookup "equipment" fields)
      && optOk instructionsOk (List.lookup "instructions" fields)
  | _ => false

/-- `checkComponent` succeeds exactly when `compOk` holds (the index only
feeds the error message). -/
theorem checkComponent_isOk (idx : Nat) (c : Json) :
    (checkComponent idx c).isOk = compOk c := by
  cases c with
  | obj fields =>
      simp only [checkComponent, compOk]
      cases hn : List.lookup "name" fields <;>
        cases hi : optOk ingredientsOk (List.lookup "ingredients" fields) <;>
          cases he : optOk equipmentOk (List.lookup "equipment" fields) <;>
            cases hs : optOk instructionsOk (List.lookup "instructions" fields) <;>
              simp [hn, hi, he, hs, Except.isOk, Except.toBool]
  | null => rfl
  | bool b => rfl
  | num q => rfl
  | str s => rfl
  | arr xs => rfl

/-- The component loop succeeds exactly when every component passes. -/
theorem checkComponents_isOk (idx : Nat) (cs : List Json) :
    (checkComponents idx cs).isOk = cs.all compOk := by
  induction cs generalizing idx with
  | nil => rfl
  | cons c cs ih =>
      have hc := checkComponent_isOk idx c
      simp only [checkComponents, List.all_cons]
      cases h : checkComponent idx c with
      | ok u =>
          rw [h] at hc
          show (checkComponents (idx + 1) cs).isOk = (compOk c && cs.all compOk)
          rw [ih (idx + 1), ← hc]
          simp [Except.isOk, Except.toBool]
      | error e =>
          rw [h] at hc
          show (Except.error e : Except String Unit).isOk = (compOk c && cs.all compOk)
          rw [← hc]
          simp [Except.isOk, Except.toBool]

/-- An `Except String Unit` that succeeds is `.ok ()`. -/
theorem isOk_unit {e : Except String Unit} (h : e.isOk = true) : e = .ok () := by
  cases e with
  | ok u => cases u; rfl
  | error _ => simp [Except.isOk, Except.toBool] at h

/-- Success outcome of the loader, given where the `components` key points. -/
theorem load_eq_ok (fields : List (String × Json)) (comps : List Json)
    (hc : List.lookup "components" fields = some (.arr comps))
    (hall : comps.all compOk = true) :
    load_recipe_json (.obj fields) = .ok (.obj fields, softWarnings fields) := by
  have hck : checkComponents 1 comps = .ok () := by
    apply isOk_unit
    rw [checkComponents_isOk, hall]
  simp only [load_recipe_json, hc, hck]

/-- The loader's success is exactly: a `components` array whose members all
pass the component checks. -/
theorem load_isOk_iff (fields : List (String × Json)) :
    (load_recipe_json (.obj fields)).isOk = true
      ↔ ∃ comps, List.lookup "components" fields = some (.arr comps)
          ∧ comps.all compOk = true := by
  constructor
  · intro h
    cases hc : List.lookup "components" fields with
    | none => simp [load_recipe_json, hc, Except.isOk, Except.toBool] at h
    | some j =>
        cases j with
        | arr comps =>
            refine ⟨comps, rfl, ?_⟩
            simp only [load_recipe_json, hc] at h
            cases hk : checkComponents 1 comps with
            | ok u =>
                have h2 := checkComponents_isOk 1 comps
                rw [hk] at h2
                rw [← h2]
                rfl
            | error e => simp [hk, Except.isOk, Except.toBool] at h
        | null => simp [load_recipe_json, hc, Except.isOk, Except.toBool] at h
        | bool b => simp [load_recipe_json, hc, Except.isOk, Except.toBool] at h
        | num q => simp [load_recipe_json, hc, Except.isOk, Except.toBool] at h
        | str s => simp [load_recipe_json, hc, Except.isOk, Except.toBool] at h
        | obj fs => simp [load_recipe_json, hc, Except.isOk, Except.toBool] at h
  · rintro ⟨comps, hc, hall⟩
    rw [load_eq_ok fields comps hc hall]
    rfl

/-- `RecipeCard.build_pdf` only produces output when the loader succeeds. -/
theorem build_pdf_fails_of_load_fails (d : Json)
    (h : (load_recipe_json d).isOk = false) :
    (RecipeCard.build_pdf d).isOk = false := by
  simp only [RecipeCard.build_pdf]
  cases hl : load_recipe_json d with
  | ok v => rw [hl] at h; simp [Except.isOk, Except.toBool] at h
  | error e => rfl

/-- Claim C1: the Banner Geometry Calculator computes its vertical layout by
exactly the specified formulas — `band_height = (padding_top + correction) +
text_height + padding_bottom`, `total_height = gap_above + band_height +
line_thickness + gap_below`, the bottom rule at `gap_above`, the top rule at
`gap_above + band_height`, and the text baseline at `gap_above +
padding_bottom + descent` (using `padding_bottom`, not the corrected
`padding_top`), with `text_height = ascent + |descent|` scaled by
`font_size/1000` — for every combination of the inputs, in both source
files. -/
theorem claim_C1_banner_vertical_layout (face : FontFace)
    (tw cw ll lt fs ga pt pb gb tc : ℚ) :
    (RecipeCard.ComponentBanner.init face tw cw ll lt fs ga pt pb gb tc).text_height
        = face.ascent * fs / 1000 + |face.descent| * fs / 1000
    ∧ (RecipeCard.ComponentBanner.init face tw cw ll lt fs ga pt pb gb tc).band_height
        = (pt + tc)
          + (RecipeCard.ComponentBanner.init face tw cw ll lt fs ga pt pb gb tc).text_height
          + pb
    ∧ (RecipeCard.ComponentBanner.init face tw cw ll lt fs ga pt pb gb tc).height
        = ga + (RecipeCard.ComponentBanner.init face tw cw ll lt fs ga pt pb gb tc).band_height
          + lt + gb
    ∧ (RecipeCard.ComponentBanner.init face tw cw ll lt fs ga pt pb gb tc).draw.y_bottom = ga
    ∧ (RecipeCard.ComponentBanner.init face tw cw ll lt fs ga pt pb gb tc).draw.y_top
        = ga + (RecipeCard.ComponentBanner.init face tw cw ll lt fs ga pt pb gb tc).band_height
    ∧ (RecipeCard.ComponentBanner.init face tw cw ll lt fs ga pt pb gb tc).draw.baseline_y
        = ga + pb + |face.descent| * fs / 1000
    ∧ (GenerateRecipe.ComponentBanner.init face tw cw ll lt fs pb pt tc ga gb).band_height
        = (pt + tc)
          + (GenerateRecipe.ComponentBanner.init face tw cw ll lt fs pb pt tc ga gb).text_height
          + pb
    ∧ (GenerateRecipe.ComponentBanner.init face tw cw ll lt fs pb pt tc ga gb).height
        = ga
          + (GenerateRecipe.ComponentBanner.init face tw cw ll lt fs pb pt tc ga gb).band_height
          + lt + gb
    ∧ (GenerateRecipe.ComponentBanner.init face tw cw ll lt fs pb pt tc ga gb).draw.y_bottom = ga
    ∧ (GenerateRecipe.ComponentBanner.init face tw cw ll lt fs pb pt tc ga gb).draw.y_top
        = ga
          + (GenerateRecipe.ComponentBanner.init face tw cw ll lt fs pb pt tc ga gb).band_height
    ∧ (GenerateRecipe.ComponentBanner.init face tw cw ll lt fs pb pt tc ga gb).draw.baseline_y
        = ga + pb + |face.descent| * fs / 1000 := by
  refine ⟨rfl, rfl, rfl, rfl, rfl, rfl, ?_, rfl, rfl, rfl, rfl⟩
  show pb + (face.ascent * fs / 1000 + |face.descent| * fs / 1000) + (pt + tc)
      = (pt + tc) + (face.ascent * fs / 1000 + |face.descent| * fs / 1000) + pb
  ring

/-- Claim C2 (amended): in `recipe-card-from-json.py` the drawn rule length
`x1 - x0` is `min line_length container_width` — in particular it equals
`container_width` whenever `line_length > container_width` — with
`x0 = (container_width - effective_length)/2` and
`x1 = x0 + effective_length`; in `generate_recipe_from_json.py` no clamp is
applied and the drawn length is always `line_length`. -/
theorem claim_C2_rule_clamp (face : FontFace) (tw cw ll lt fs ga pt pb gb tc : ℚ) :
    ((RecipeCard.ComponentBanner.init face tw cw ll lt fs ga pt pb gb tc).draw.x1
        - (RecipeCard.ComponentBanner.init face tw cw ll lt fs ga pt pb gb tc).draw.x0
        = min ll cw)
    ∧ (cw < ll →
        (RecipeCard.ComponentBanner.init face tw cw ll lt fs ga pt pb gb tc).draw.x1
          - (RecipeCard.ComponentBanner.init face tw cw ll lt fs ga pt pb gb tc).draw.x0
          = cw)
    ∧ (RecipeCard.ComponentBanner.init face tw cw ll lt fs ga pt pb gb tc).draw.x0
        = (cw - min ll cw) / 2
    ∧ (RecipeCard.ComponentBanner.init face tw cw ll lt fs ga pt pb gb tc).draw.x1
        = (cw - min ll cw) / 2 + min ll cw
    ∧ (GenerateRecipe.ComponentBanner.init face tw cw ll lt fs pb pt tc ga gb).draw.x1
        - (GenerateRecipe.ComponentBanner.init face tw cw ll lt fs pb pt tc ga gb).draw.x0
        = ll := by
  refine ⟨?_, ?_, rfl, rfl, ?_⟩
  · show (cw - min ll cw) / 2 + min ll cw - (cw - min ll cw) / 2 = min ll cw
    ring
  · intro h
    show (cw - min ll cw) / 2 + min ll cw - (cw - min ll cw) / 2 = cw
    rw [min_eq_right h.le]
    ring
  · show (cw - ll) / 2 + ll - (cw - ll) / 2 = ll
    ring

/-- Witness for C2: at the concrete inputs `line_length = 500 >
container_width = 400`, the rule drawn by `recipe-card-from-json.py` has
length `400`. -/
theorem claim_C2_witness :
    (RecipeCard.ComponentBanner.init helveticaBoldFace 100 400 500 3 16 16 6 6 8 2).draw.x1
      - (RecipeCard.ComponentBanner.init helveticaBoldFace 100 400 500 3 16 16 6 6 8 2).draw.x0
      = 400 :=
  (claim_C2_rule_clamp helveticaBoldFace 100 400 500 3 16 16 6 6 8 2).2.1 (by decide)

/-- Counterexample for C2 as stated: with `line_length = 500 >
container_width = 400`, the banner of `generate_recipe_from_json.py` draws
a rule of length `500`, not `400` — the claimed clamp does not hold there. -/
theorem claim_C2_counterexample :
    (400 : ℚ) < 500
    ∧ (GenerateRecipe.ComponentBanner.init helveticaBoldFace 100 400 500 3 16 6 6 2 16 8).draw.x1
        - (GenerateRecipe.ComponentBanner.init helveticaBoldFace 100 400 500 3 16 6 6 2 16 8).draw.x0
        = 500
    ∧ (500 : ℚ) ≠ 400 := by
  refine ⟨by decide, ?_, by decide⟩
  show ((400 : ℚ) - 500) / 2 + 500 - ((400 : ℚ) - 500) / 2 = 500
  ring

/-- Claim C6: for every `container_width` and every label (whose measured
width is `tw`), the computed `text_x` horizontally centers the label:
`text_x + tw/2 = container_width/2`, exactly, since
`text_x = (container_width - tw)/2`; in both source files. -/
theorem claim_C6_label_centering (face : FontFace)
    (tw cw ll lt fs ga pt pb gb tc : ℚ) :
    (RecipeCard.ComponentBanner.init face tw cw ll lt fs ga pt pb gb tc).draw.text_x + tw / 2
        = cw / 2
    ∧ (RecipeCard.ComponentBanner.init face tw cw ll lt fs ga pt pb gb tc).draw.text_x
        = (cw - tw) / 2
    ∧ (GenerateRecipe.ComponentBanner.init face tw cw ll lt fs pb pt tc ga gb).draw.text_x
        + tw / 2 = cw / 2 := by
  refine ⟨?_, rfl, ?_⟩ <;>
    · show (cw - tw) / 2 + tw / 2 = cw / 2
      ring

/-- Claim C7: with the program's font face (Helvetica-Bold, ascent 718,
descent -207), for every `font_size > 0` the computed `text_height` is
strictly positive, and it is monotonically non-decreasing in `font_size`;
in both source files. -/
theorem claim_C7_text_height_pos_mono (tw cw ll lt ga pt pb gb tc fs fs2 : ℚ)
    (hfs : 0 < fs) (hle : fs ≤ fs2) :
    0 < (RecipeCard.ComponentBanner.init helveticaBoldFace tw cw ll lt fs ga pt pb gb tc).text_height
    ∧ (RecipeCard.ComponentBanner.init helveticaBoldFace tw cw ll lt fs ga pt pb gb tc).text_height
        ≤ (RecipeCard.ComponentBanner.init helveticaBoldFace tw cw ll lt fs2 ga pt pb gb tc).text_height
    ∧ 0 < (GenerateRecipe.ComponentBanner.init helveticaBoldFace tw cw ll lt fs pb pt tc ga gb).text_height
    ∧ (GenerateRecipe.ComponentBanner.init helveticaBoldFace tw cw ll lt fs pb pt tc ga gb).text_height
        ≤ (GenerateRecipe.ComponentBanner.init helveticaBoldFace tw cw ll lt fs2 pb pt tc ga gb).text_height := by
  have key : ∀ g : ℚ,
      (RecipeCard.ComponentBanner.init helveticaBoldFace tw cw ll lt g ga pt pb gb tc).text_height
        = 925 / 1000 * g := by
    intro g
    show (718 : ℚ) * g / 1000 + |(-207 : ℚ)| * g / 1000 = 925 / 1000 * g
    rw [show |(-207 : ℚ)| = 207 by norm_num]
    ring
  have key2 : ∀ g : ℚ,
      (GenerateRecipe.ComponentBanner.init helveticaBoldFace tw cw ll lt g pb pt tc ga gb).text_height
        = 925 / 1000 * g := by
    intro g
    show (718 : ℚ) * g / 1000 + |(-207 : ℚ)| * g / 1000 = 925 / 1000 * g
    rw [show |(-207 : ℚ)| = 207 by norm_num]
    ring
  refine ⟨?_, ?_, ?_, ?_⟩
  · rw [key fs]; exact mul_pos (by norm_num) hfs
  · rw [key fs, key fs2]; exact mul_le_mul_of_nonneg_left hle (by norm_num)
  · rw [key2 fs]; exact mul_pos (by norm_num) hfs
  · rw [key2 fs, key2 fs2]; exact mul_le_mul_of_nonneg_left hle (by norm_num)

/-- Witness for C7: at `font_size = 16 > 0` (the program's actual size) and
`16 ≤ 24`, text heights are positive and non-decreasing. -/
theorem claim_C7_witness :
    0 < (RecipeCard.ComponentBanner.init helveticaBoldFace 100 468 420 3 16 16 6 6 8 2).text_height
    ∧ (RecipeCard.ComponentBanner.init helveticaBoldFace 100 468 420 3 16 16 6 6 8 2).text_height
        ≤ (RecipeCard.ComponentBanner.init helveticaBoldFace 100 468 420 3 24 16 6 6 8 2).text_height
    ∧ 0 < (GenerateRecipe.ComponentBanner.init helveticaBoldFace 100 468 420 3 16 6 6 2 16 8).text_height
    ∧ (GenerateRecipe.ComponentBanner.init helveticaBoldFace 100 468 420 3 16 6 6 2 16 8).text_height
        ≤ (GenerateRecipe.ComponentBanner.init helveticaBoldFace 100 468 420 3 24 6 6 2 16 8).text_height :=
  claim_C7_text_height_pos_mono 100 468 420 3 16 6 6 8 2 16 24 (by decide) (by decide)

/-- Claim C8: for any two runs of the geometry that differ only in
`container_width`, the computed `total_height` is identical, and the width
of the occupied box is exactly `container_width`; in both source files. -/
theorem claim_C8_height_invariant (face : FontFace)
    (tw cw cw2 ll lt fs ga pt pb gb tc : ℚ) :
    (RecipeCard.ComponentBanner.init face tw cw ll lt fs ga pt pb gb tc).height
        = (RecipeCard.ComponentBanner.init face tw cw2 ll lt fs ga pt pb gb tc).height
    ∧ (RecipeCard.ComponentBanner.init face tw cw ll lt fs ga pt pb gb tc).width = cw
    ∧ (GenerateRecipe.ComponentBanner.init face tw cw ll lt fs pb pt tc ga gb).height
        = (GenerateRecipe.ComponentBanner.init face tw cw2 ll lt fs pb pt tc ga gb).height
    ∧ (GenerateRecipe.ComponentBanner.init face tw cw ll lt fs pb pt tc ga gb).width = cw :=
  ⟨rfl, rfl, rfl, rfl⟩

/-- Claim C3 (amended): the loader fails fatally — returning no document —
for every input in which some component's `ingredients` entry is not a
2-element row; but only the row's shape is checked, never the cells'
types: any 2-element row passes, its cells need not be strings. -/
theorem claim_C3_ingredients_shape (fields : List (String × Json))
    (comps : List Json) (cfields : List (String × Json)) (ing : Json)
    (hcomp : List.lookup "components" fields = some (.arr comps))
    (hc : Json.obj cfields ∈ comps)
    (hing : List.lookup "ingredients" cfields = some ing)
    (hbad : ingredientsOk ing = false) :
    (load_recipe_json (.obj fields)).isOk = false
    ∧ ∀ x y : Json, row2Ok (.arr [x, y]) = true := by
  constructor
  · have hcOk : compOk (.obj cfields) = false := by
      simp [compOk, hing, optOk, hbad]
    cases hok : (load_recipe_json (.obj fields)).isOk with
    | false => rfl
    | true =>
        rcases (load_isOk_iff fields).mp hok with ⟨comps2, hc2, hall⟩
        rw [hcomp, Option.some.injEq] at hc2
        injection hc2 with hc3
        subst hc3
        have := List.all_eq_true.mp hall _ hc
        rw [hcOk] at this
        exact Bool.noConfusion this
  · intro x y
    rfl

/-- Witness for C3: the concrete document whose only component has
`ingredients = 3` (not a list of 2-element rows) is rejected. -/
theorem claim_C3_witness :
    (load_recipe_json (.obj [("components",
        .arr [.obj [("name", .str "X"), ("ingredients", .num 3)]])])).isOk = false
    ∧ ∀ x y : Json, row2Ok (.arr [x, y]) = true :=
  claim_C3_ingredients_shape
    [("components", .arr [.obj [("name", .str "X"), ("ingredients", .num 3)]])]
    [.obj [("name", .str "X"), ("ingredients", .num 3)]]
    [("name", .str "X"), ("ingredients", .num 3)] (.num 3)
    rfl (List.mem_singleton.mpr rfl) rfl rfl

/-- Counterexample for C3 as stated: an `ingredients` entry that is a
2-element row of numbers — not strings — is accepted: the loader succeeds
instead of failing with a validation error. -/
theorem claim_C3_counterexample :
    (load_recipe_json (.obj [("components", .arr
        [.obj [("name", .str "Cake"),
               ("ingredients", .arr [.arr [.num 1, .num 2]])]])])).isOk = true := rfl

/-- Claim C4 (amended): in `recipe-card-from-json.py` a document whose top
level lacks the `components` key, or whose `components` is not a list, is
rejected eagerly during load and `build_pdf` produces no output; in
`generate_recipe_from_json.py` a missing `components` key is likewise a
fatal error with no output, but a non-sequence `components` value is not
necessarily rejected (see the counterexample). -/
theorem claim_C4_missing_components (fields : List (String × Json))
    (hmiss : List.lookup "components" fields = none
      ∨ ∃ j, List.lookup "components" fields = some j ∧ j.isArr = false) :
    (load_recipe_json (.obj fields)).isOk = false
    ∧ (RecipeCard.build_pdf (.obj fields)).isOk = false
    ∧ (List.lookup "components" fields = none →
        (GenerateRecipe.build_pdf (.obj fields)).isOk = false) := by
  have hload : (load_recipe_json (.obj fields)).isOk = false := by
    rcases hmiss with hnone | ⟨j, hj, hja⟩
    · simp [load_recipe_json, hnone, Except.isOk, Except.toBool]
    · cases j with
      | arr xs => simp [Json.isArr] at hja
      | null => simp [load_recipe_json, hj, Except.isOk, Except.toBool]
      | bool b => simp [load_recipe_json, hj, Except.isOk, Except.toBool]
      | num q => simp [load_recipe_json, hj, Except.isOk, Except.toBool]
      | str s => simp [load_recipe_json, hj, Except.isOk, Except.toBool]
      | obj fs => simp [load_recipe_json, hj, Except.isOk, Except.toBool]
  refine ⟨hload, build_pdf_fails_of_load_fails _ hload, ?_⟩
  intro hnone
  simp [GenerateRecipe.build_pdf, hnone, Except.isOk, Except.toBool]

/-- Witness for C4: the concrete document `{"title": "T"}` (no
`components`) fails in both programs and yields no output. -/
theorem claim_C4_witness :
    (load_recipe_json (.obj [("title", .str "T")])).isOk = false
    ∧ (RecipeCard.build_pdf (.obj [("title", .str "T")])).isOk = false
    ∧ (List.lookup "components" [("title", Json.str "T")] = none →
        (GenerateRecipe.build_pdf (.obj [("title", .str "T")])).isOk = false) :=
  claim_C4_missing_components [("title", .str "T")] (Or.inl rfl)

/-- Counterexample for C4 as stated: `generate_recipe_from_json.py`, run on
a document whose `components` is an (empty) object — not a sequence —
does not fail at all: it produces an output document. -/
theorem claim_C4_counterexample :
    Json.isArr (.obj []) = false
    ∧ GenerateRecipe.build_pdf (.obj [("components", .obj [])])
        = .ok { title := .str "Milkbar Recipe", version := .null,
                line_length := .num 420, footer := none, bannerTexts := [] } :=
  ⟨rfl, rfl⟩

/-- Claim C5 (amended): for every otherwise valid document missing the
optional `title`, `version` and `line_length` keys, loading succeeds and
the three diagnostics are reported without altering the returned
document; `recipe-card-from-json.py` then renders with the default title
`"Recipe"`, a blank footer and `line_length = 420`, while
`generate_recipe_from_json.py` defaults the title to `"Milkbar Recipe"`
(not `"Recipe"`) and omits the footer. -/
theorem claim_C5_optional_defaults (fields : List (String × Json))
    (comps : List Json)
    (htitle : List.lookup "title" fields = none)
    (hver : List.lookup "version" fields = none)
    (hlen : List.lookup "line_length" fields = none)
    (hcomp : List.lookup "components" fields = some (.arr comps))
    (hall : comps.all compOk = true) :
    load_recipe_json (.obj fields)
      = .ok (.obj fields,
          ["WARN: Missing 'title'; defaulting to 'Recipe'.",
           "WARN: Missing 'version'; footer will be blank.",
           "WARN: Missing 'line_length'; defaulting to 420."])
    ∧ RecipeCard.build_pdf (.obj fields)
        = .ok { title := .str "Recipe", version := .str "",
                line_length := .num 420, footer := some (.str ""),
                bannerTexts := comps.map fun c => (c.lookup "name").getD .null }
    ∧ GenerateRecipe.titleOf (.obj fields) = .str "Milkbar Recipe"
    ∧ GenerateRecipe.footerOf fields = none
    ∧ GenerateRecipe.lineLengthOf (.obj fields) = .num 420 := by
  have hload := load_eq_ok fields comps hcomp hall
  have hw : softWarnings fields
      = ["WARN: Missing 'title'; defaulting to 'Recipe'.",
         "WARN: Missing 'version'; footer will be blank.",
         "WARN: Missing 'line_length'; defaulting to 420."] := by
    simp [softWarnings, htitle, hver, hlen]
  refine ⟨by rw [hload, hw], ?_, ?_, ?_, ?_⟩
  · simp only [RecipeCard.build_pdf, hload]
    simp [Json.getD, Json.lookup, htitle, hver, hlen, hcomp]
  · simp [GenerateRecipe.titleOf, Json.getD, Json.lookup, htitle]
  · simp [GenerateRecipe.footerOf, hver]
  · simp [GenerateRecipe.lineLengthOf, Json.getD, Json.lookup, hlen]

/-- Witness for C5: the concrete document with a single component and none
of the optional keys. -/
theorem claim_C5_witness :
    load_recipe_json (.obj [("components", .arr [.obj [("name", .str "X")]])])
      = .ok (.obj [("components", .arr [.obj [("name", .str "X")]])],
          ["WARN: Missing 'title'; defaulting to 'Recipe'.",
           "WARN: Missing 'version'; footer will be blank.",
           "WARN: Missing 'line_length'; defaulting to 420."])
    ∧ RecipeCard.build_pdf (.obj [("components", .arr [.obj [("name", .str "X")]])])
        = .ok { title := .str "Recipe", version := .str "",
                line_length := .num 420, footer := some (.str ""),
                bannerTexts := [Json.obj [("name", Json.str "X")]].map
                  fun c => (c.lookup "name").getD .null }
    ∧ GenerateRecipe.titleOf (.obj [("components", .arr [.obj [("name", .str "X")]])])
        = .str "Milkbar Recipe"
    ∧ GenerateRecipe.footerOf [("components", .arr [.obj [("name", .str "X")]])] = none
    ∧ GenerateRecipe.lineLengthOf (.obj [("components", .arr [.obj [("name", .str "X")]])])
        = .num 420 :=
  claim_C5_optional_defaults [("components", .arr [.obj [("name", .str "X")]])]
    [.obj [("name", .str "X")]] rfl rfl rfl rfl rfl

/-- Counterexample for C5 as stated: on a document with no `title`,
`generate_recipe_from_json.py` renders the title `"Milkbar Recipe"`, not
the claimed default `"Recipe"`. -/
theorem claim_C5_counterexample :
    (GenerateRecipe.build_pdf
        (.obj [("components", .arr [.obj [("name", .str "X")]])])).toOption.map PdfOutput.title
      = some (.str "Milkbar Recipe")
    ∧ "Milkbar Recipe" ≠ "Recipe" :=
  ⟨rfl, by decide⟩

/-- Claim C9: the loader never mutates the document — whenever it succeeds
it returns the parsed value itself, every key and value unchanged; an
unknown extra key, at the document level or at the component level, never
causes failure, never changes the validation outcome, and is preserved
verbatim in the result. -/
theorem claim_C9_loader_identity :
    (∀ d v w, load_recipe_json d = .ok (v, w) → v = d)
    ∧ (∀ fields k val, k ∉ topLevelKeys →
        (load_recipe_json (.obj fields)).isOk = true →
        load_recipe_json (.obj ((k, val) :: fields))
          = .ok (.obj ((k, val) :: fields), softWarnings fields))
    ∧ (∀ idx k val cfields, k ∉ componentLevelKeys →
        checkComponent idx (.obj ((k, val) :: cfields))
          = checkComponent idx (.obj cfields)) := by
  refine ⟨?_, ?_, ?_⟩
  · intro d v w h
    cases d with
    | obj fields =>
        cases hc : List.lookup "components" fields with
        | none =>
            simp only [load_recipe_json, hc] at h
            exact Except.noConfusion h
        | some j =>
            cases j with
            | arr comps =>
                simp only [load_recipe_json, hc] at h
                cases hk : checkComponents 1 comps with
                | ok u =>
                    rw [hk] at h
                    simp only [Except.ok.injEq, Prod.mk.injEq] at h
                    exact h.1.symm
                | error e =>
                    rw [hk] at h
                    exact Except.noConfusion h
            | null =>
                simp only [load_recipe_json, hc] at h
                exact Except.noConfusion h
            | bool b =>
                simp only [load_recipe_json, hc] at h
                exact Except.noConfusion h
            | num q =>
                simp only [load_recipe_json, hc] at h
                exact Except.noConfusion h
            | str s =>
                simp only [load_recipe_json, hc] at h
                exact Except.noConfusion h
            | obj fs =>
                simp only [load_recipe_json, hc] at h
                exact Except.noConfusion h
    | null => exact Except.noConfusion h
    | bool b => exact Except.noConfusion h
    | num q => exact Except.noConfusion h
    | str s => exact Except.noConfusion h
    | arr xs => exact Except.noConfusion h
  · intro fields k val hk hok
    have htne : ("title" : String) ≠ k := by
      intro hcontra; exact hk (by rw [← hcontra]; decide)
    have hvne : ("version" : String) ≠ k := by
      intro hcontra; exact hk (by rw [← hcontra]; decide)
    have hlne : ("line_length" : String) ≠ k := by
      intro hcontra; exact hk (by rw [← hcontra]; decide)
    have hcne : ("components" : String) ≠ k := by
      intro hcontra; exact hk (by rw [← hcontra]; decide)
    rcases (load_isOk_iff fields).mp hok with ⟨comps, hc, hall⟩
    have hc2 : List.lookup "components" ((k, val) :: fields) = some (.arr comps) := by
      rw [lookup_cons_ne hcne val fields]; exact hc
    rw [load_eq_ok ((k, val) :: fields) comps hc2 hall]
    have hw : softWarnings ((k, val) :: fields) = softWarnings fields := by
      simp only [softWarnings, lookup_cons_ne htne, lookup_cons_ne hvne,
        lookup_cons_ne hlne]
    rw [hw]
  · intro idx k val cfields hk
    have hn : ("name" : String) ≠ k := by
      intro hcontra; exact hk (by rw [← hcontra]; decide)
    have hi : ("ingredients" : String) ≠ k := by
      intro hcontra; exact hk (by rw [← hcontra]; decide)
    have he2 : ("equipment" : String) ≠ k := by
      intro hcontra; exact hk (by rw [← hcontra]; decide)
    have hs : ("instructions" : String) ≠ k := by
      intro hcontra; exact hk (by rw [← hcontra]; decide)
    simp only [checkComponent, lookup_cons_ne hn, lookup_cons_ne hi,
      lookup_cons_ne he2, lookup_cons_ne hs]

/-- Witness for C9: prepending the unknown key `"extra"` to a document that
loads fine leaves the load accepted and the key preserved in the result. -/
theorem claim_C9_witness :
    load_recipe_json (.obj [("extra", .null), ("components", .arr [])])
      = .ok (.obj [("extra", .null), ("components", .arr [])],
          softWarnings [("components", .arr [])]) :=
  claim_C9_loader_identity.2.1 [("components", .arr [])] "extra" .null
    (by decide) rfl

/-- Claim C10: validation of a component's `name` checks only the key's
presence, not its value's type: a component whose `name` is null, a
number, a list or an object passes validation and the loader accepts the
document. -/
theorem claim_C10_name_presence_untyped (v : Json) (idx : Nat) :
    checkComponent idx (.obj [("name", v)]) = .ok ()
    ∧ (load_recipe_json
        (.obj [("components", .arr [.obj [("name", v)]])])).isOk = true :=
  ⟨rfl, rfl⟩

end RecipeSpec
